import Mathlib

/-!
Verification development for the SAT ETL pipeline
(streaming extract → mojibake repair → type coercion → guarded load).

The Python sources are shallowly embedded: each `def` below mirrors one
function of the repository (`pkg/extract.py`, `pkg/transform.py`,
`pkg/enforcer.py`, `pkg/load.py`, `pkg/cleaning_rules.py`,
`pkg/config_master.py`, `main.py`).  Library calls (polars string kernels,
pyodbc round trips) are modelled by explicit executable functions; machine
floats are represented by their exactly parsed decimal value, since every
property below depends only on parse success/failure, never on rounding.
-/

namespace ETL

/-! ### Basic text utilities (models of Python/polars string kernels) -/

/-- Whitespace characters stripped by `str.strip_chars()` (ASCII fragment of
the Unicode whitespace class; the repository's data only ever carries these). -/
def wsChar (c : Char) : Bool :=
  c = ' ' || c = '\t' || c = '\n' || c = '\r' || c = '\x0b' || c = '\x0c'

/-- Model of polars `str.strip_chars()` with no argument: trim perimeter
whitespace on both ends. -/
def stripChars (s : String) : String :=
  ⟨((s.data.dropWhile wsChar).reverse.dropWhile wsChar).reverse⟩

/-- Uppercasing of one character: ASCII letters plus the Latin-1 letter block
(0xE0–0xFE except ÷, and ÿ), which covers every character produced by the
repair catalog.  Multi-character Unicode expansions (ß → SS) do not occur in
this data and are not modelled. -/
def charUpper (c : Char) : Char :=
  if 'a' ≤ c ∧ c ≤ 'z' then Char.ofNat (c.toNat - 32)
  else if 0xE0 ≤ c.toNat ∧ c.toNat ≤ 0xFE ∧ c.toNat ≠ 0xF7 then Char.ofNat (c.toNat - 32)
  else if c.toNat = 0xFF then Char.ofNat 0x178
  else c

/-- Model of `str.upper()` / polars `str.to_uppercase()`. -/
def toUpperStr (s : String) : String := ⟨s.data.map charUpper⟩

/-- Substring occurrence test, the model of Python `sub in s`. -/
def occursIn (p : List Char) : List Char → Bool
  | [] => p.isPrefixOf []
  | c :: rest => p.isPrefixOf (c :: rest) || occursIn p rest

def occursInStr (p s : String) : Bool := occursIn p.data s.data

/-- Fuel-indexed worker for `replaceAll`; the fuel is an upper bound on the
length of the text still to scan, so recursion is structural. -/
def replaceAllGo (p r : List Char) : Nat → List Char → List Char
  | 0, s => s
  | fuel + 1, s =>
    match s with
    | [] => []
    | c :: rest =>
      if p ≠ [] ∧ p.isPrefixOf (c :: rest) then
        r ++ replaceAllGo p r fuel (List.drop p.length (c :: rest))
      else
        c :: replaceAllGo p r fuel rest

/-- Replace every (leftmost, non-overlapping) occurrence of `p` by `r`:
the model of Python `str.replace`. -/
def replaceAll (p r s : List Char) : List Char := replaceAllGo p r s.length s

/-- Model of Python `s.replace(old, new)`. -/
def pyReplace (s old new : String) : String := ⟨replaceAll old.data new.data s.data⟩

/-! ### The mojibake repair catalog (`pkg/cleaning_rules.py`, `REEMPLAZOS_MOJIBAKE`)

A Python `dict` iterates in insertion order; the single repeated key of the
source literal (`"Ã­"`, re-assigned to the same value) keeps its first
position, so the embedded list is exactly the iteration order of the source
dictionary.  Non-ASCII codepoints are written as escapes of the exact source
characters. -/

def REEMPLAZOS_MOJIBAKE : List (String × String) := [
  ("A\u00AF \u00BF \u00BFAGA", "\u00D1AGA"),
  ("A\u00AF \u00BF \u00BFIGA", "\u00D1IGA"),
  ("A\u00AF \u00BF \u00BFUELOS", "\u00D1UELOS"),
  ("A\u00AF \u00BF \u00BFA", "\u00D1A"),
  ("A\u00AF \u00BF \u00BFO", "\u00D1O"),
  ("A\u00AF \u00BF \u00BFEZ", "\u00D1EZ"),
  ("A\u00AF \u00BF \u00BFOS", "\u00D1OS"),
  ("A\u00AF \u00BF \u00BF", "\u00D1"),
  ("\u00C3\u0192\u00C2\u0192\u00C3\u00A2\u00C2\u20AC\u00C2\u02DC", "\u00D1"),
  ("\u00C3\u0192\u00C2\u0192\u00C3\u00A2\u00C2\u20AC\u00C2", "\u00D1"),
  ("\u00C3\u00AF\u00C2\u00BF\u00C2\u00BD", "\u00D1"),
  ("A\u00AF \u00BF \u00BD", "\u00D1"),
  ("D\u00C2\u00A5", "D"),
  ("D \u00A5", "D"),
  ("\u00E2\u20AC\u00A6", ""),
  (" \u00A6", ""),
  ("\u00C2\u00B7", ""),
  ("AR\u00D1R", "O"),
  ("CIA \u201CN", "CION"),
  ("CIA\u201CN", "CION"),
  ("\u201CN", "ON"),
  ("\u201C", "O"),
  ("A \u201C", "O"),
  ("\u00C3\u0192\u00C2\u00B1", "\u00D1"),
  ("\u00C3\u0192\u00C2\u2018", "\u00D1"),
  ("\u00C3\u0192 ", "\u00D1"),
  ("\u00C3\u0192?", "\u00D1"),
  ("\u00C3\u0192", "\u00D1"),
  ("\u00C3\u2030", "E"),
  ("\u00C3\u201C", "O"),
  ("\u00C3\u201D", "O"),
  ("\u00C3\u2026", "A"),
  ("\u00C3\u2018", "\u00D1"),
  ("\u00C3\u00B1", "\u00D1"),
  ("\u00C3\u00A1", "A"),
  ("\u00C3\u00A9", "E"),
  ("\u00C3\u00AD", "I"),
  ("\u00C3\u00B3", "O"),
  ("\u00C3\u00BA", "U"),
  ("\u00C3\u0161", "U"),
  ("\u00C3\u2021", " "),
  ("\u00C3\u0152", "U"),
  ("\u00C3.", "\u00D1"),
  ("A\u2030", "E"),
  ("A\u201C", "O"),
  ("A \u0152", "O"),
  ("A\u00A8", "E"),
  ("A\u00A9", "E"),
  ("A \u00A9", "E"),
  ("\u00A9", "E"),
  ("\u00C3\u008D", "I"),
  ("\u00C3\u0081", "A"),
  ("AGUIA\u0191\u02DC", "\u00D1"),
  ("MAR\u00C3A", "MARIA"),
  ("ALCALD\u00C3A", "ALCALDIA"),
  ("GARC\u00C3A", "GARCIA"),
  ("\u00A5", "\u00D1"),
  ("\u00C3\u00A5", "\u00D1"),
  ("\u00C2\u00A5", "\u00D1"),
  ("\u00C3A", "IA"),
  ("\u0191\u02DC", "\u00D1"),
  ("\u02DC", ""),
  ("\u0191", ""),
  ("\u00A8", ""),
  ("\u2019", ""),
  ("\u2018", ""),
  ("\u00B4", ""),
  ("\u00B2", "O"),
  ("\u00B9", "U"),
  ("\u2122", ""),
  ("\u00AC", "I"),
  ("\u0152", "O"),
  ("\u00B1", "\u00D1"),
  ("A \u00B1", "\u00D1"),
  ("A O", "\u00D1"),
  ("A \u2030", "E"),
  ("\u00CF\u00BF\u00BD", ""),
  ("\u00B0", ""),
  ("\u00BA", ""),
  ("\u00A7", ""),
  ("\u00BC", "U"),
  ("\u00C3 ", "A"),
  ("\u00C3", "A"),
  ("GARC?A", "GARCIA"),
  ("GARC A", "GARCIA"),
  ("G?MEZ", "GOMEZ"),
  ("G MEZ", "GOMEZ"),
  ("P?REZ", "PEREZ"),
  (" P REZ", " PEREZ"),
  ("ORDO?EZ", "ORDO\u00D1EZ"),
  ("ORDO EZ", "ORDO\u00D1EZ"),
  ("LUC?A", "LUCIA"),
  ("MAR?A", "MARIA"),
  ("D?AZ", "DIAZ"),
  ("MU?OZ", "MU\u00D1OZ"),
  ("MU EZ", "MU\u00D1OZ"),
  ("BA?OS", "BA\u00D1OS"),
  ("\u00CD", "I"),
  ("&AMP;", "&"),
  ("&QUOT;", ""),
  ("\u00C2\u00AE", ""),
  ("\u00C2", " "),
  ("\u20AC", ""),
  ("\u00C2\u00BA", ""),
  ("\u00A1", "I"),
  ("\u0081", " "),
  ("\u2039", ""),
  ("\u203A", ""),
  ("BAOS", "BA\u00D1OS"),
  ("SALDAA", "SALDA\u00D1A"),
  ("COMPAIA", "COMPA\u00D1IA"),
  ("NIO", "NI\u00D1O"),
  ("DISEO", "DISE\u00D1O"),
  ("AO", "A\u00D1O"),
  ("\u00D0", "\u00D1"),
  ("\u00F0", "\u00F1"),
  ("\uFFFD", "\u00D1")
]

/-- Model of `pkg/transform.py::limpiar_texto_python`: `None ↦ None`; for a
string, iterate the catalog in order, replacing all occurrences of each
corrupt pattern (the source guards each step with `sucio in texto_limpio`). -/
def limpiar_texto_python : Option String → Option String
  | none => none
  | some texto =>
    some (REEMPLAZOS_MOJIBAKE.foldl
      (fun acc pr => if occursInStr pr.1 acc then pyReplace acc pr.1 pr.2 else acc) texto)

/-- The spec-side description of the repair step: a plain left fold of
replace-all over the ordered rule list, with no occurrence guard. -/
def repairFold (rules : List (String × String)) (s : String) : String :=
  rules.foldl (fun acc pr => pyReplace acc pr.1 pr.2) s

/-! ### Supporting lemmas for the repair fold -/

theorem replaceAllGo_of_not_occurs (p r : List Char) :
    ∀ (fuel : Nat) (s : List Char), occursIn p s = false → replaceAllGo p r fuel s = s := by
  intro fuel
  induction fuel with
  | zero => intro s _; rfl
  | succ n ih =>
    intro s h
    cases s with
    | nil => rfl
    | cons c rest =>
      have hor : (p.isPrefixOf (c :: rest) || occursIn p rest) = false := by
        simpa [occursIn] using h
      have h1 : p.isPrefixOf (c :: rest) = false := by
        cases hp : p.isPrefixOf (c :: rest) <;> simp [hp] at hor ⊢
      have h2 : occursIn p rest = false := by
        cases hq : occursIn p rest <;> simp [hq] at hor ⊢
      have hcond : ¬ (p ≠ [] ∧ p.isPrefixOf (c :: rest)) := by
        intro hc
        rw [hc.2] at h1
        exact Bool.true_eq_false.mp h1
      simp only [replaceAllGo, if_neg hcond]
      rw [ih rest h2]

theorem pyReplace_of_not_occurs (s old new : String) (h : occursInStr old s = false) :
    pyReplace s old new = s := by
  unfold pyReplace replaceAll
  rw [replaceAllGo_of_not_occurs old.data new.data s.data.length s.data h]

theorem guarded_fold_eq_repairFold (rules : List (String × String)) :
    ∀ s : String,
      rules.foldl
        (fun acc pr => if occursInStr pr.1 acc then pyReplace acc pr.1 pr.2 else acc) s
      = repairFold rules s := by
  induction rules with
  | nil => intro s; rfl
  | cons hd tl ih =>
    intro s
    simp only [repairFold, List.foldl_cons]
    by_cases h : occursInStr hd.1 s = true
    · rw [if_pos h]
      exact ih _
    · have hf : occursInStr hd.1 s = false := by
        cases hh : occursInStr hd.1 s
        · rfl
        · exact absurd hh h
      rw [if_neg (by simp [hf]), pyReplace_of_not_occurs s hd.1 hd.2 hf]
      exact ih _

/-- C4: the text-repair function maps null to null, and on every non-null
string its result is exactly the left fold of ordered replace-all steps over
the fixed repair catalog (rule k operates on the output of rules 1..k-1). -/
theorem repair_is_ordered_fold :
    limpiar_texto_python none = none ∧
    ∀ s : String,
      limpiar_texto_python (some s) = some (repairFold REEMPLAZOS_MOJIBAKE s) := by
  refine ⟨rfl, fun s => ?_⟩
  simp only [limpiar_texto_python]
  rw [guarded_fold_eq_repairFold REEMPLAZOS_MOJIBAKE s]

/-! ### The batch data model

A polars DataFrame at this stage of the pipeline is an ordered list of named
columns; every column the extractor produces is Utf8, and the coercion step
retypes some columns to Datetime or Float64.  A Float64 cell is represented
by its exactly parsed decimal value (or inf/nan); the claims below depend
only on parse success/failure, never on binary rounding. -/

structure Timestamp where
  year : Nat
  month : Nat
  day : Nat
  hour : Nat
  minute : Nat
  second : Nat
deriving DecidableEq, Repr

inductive F64 where
  | finite (q : ℚ)
  | inf
  | neginf
  | nan
deriving DecidableEq, Repr

inductive ColData where
  | utf8 (cells : List (Option String))
  | dt (cells : List (Option Timestamp))
  | f64 (cells : List (Option F64))
deriving DecidableEq, Repr

abbrev DataFrame := List (String × ColData)

def colHeight : ColData → Nat
  | .utf8 cs => cs.length
  | .dt cs => cs.length
  | .f64 cs => cs.length

/-- `df.height`: every column of a batch has the same length, so polars
reports the length of the first column (0 for a column-less frame). -/
def dfHeight (df : DataFrame) : Nat :=
  match df.head? with
  | none => 0
  | some nd => colHeight nd.2

/-! ### The transform step (`pkg/transform.py::transform_sat_batch`) -/

/-- Apply a repair function elementwise to a Utf8 column, the model of
`map_elements(..., return_dtype=pl.Utf8)` (nulls propagate: the repair
function itself maps null to null). -/
def mapUtf8 (f : Option String → Option String) : ColData → ColData
  | .utf8 cells => .utf8 (cells.map f)
  | d => d

/-- Phase 1 of `transform_sat_batch`: trim perimeter whitespace and convert
to uppercase on every Utf8 column (`pl.col(pl.Utf8).str.strip_chars().str.to_uppercase()`). -/
def fase1 (df : DataFrame) : DataFrame :=
  df.map (fun nd =>
    (nd.1, match nd.2 with
      | .utf8 cells => .utf8 (cells.map (Option.map (fun s => toUpperStr (stripChars s))))
      | d => d))

/-- The sensitive-column keyword list of `transform_sat_batch`. -/
def palabras_clave : List String :=
  ["NOMBRE", "CONCEPTO", "DESCRIPCION", "PUESTO", "DEPARTAMENTO"]

/-- A column is selected for mojibake repair when its uppercased name
contains one of the sensitive keywords. -/
def colSensible (n : String) : Bool :=
  palabras_clave.any (fun key => occursInStr key (toUpperStr n))

/-- Phase 2 of `transform_sat_batch`: apply `limpiar_texto_python` to exactly
the keyword-selected columns (`with_columns` over `cols_a_limpiar`; when no
column matches, the source skips the call, which is the identity). -/
def fase2 (df : DataFrame) : DataFrame :=
  df.map (fun nd =>
    if colSensible nd.1 then (nd.1, mapUtf8 limpiar_texto_python nd.2) else nd)

/-- Model of `pkg/transform.py::transform_sat_batch`. -/
def transform_sat_batch (df : DataFrame) : DataFrame :=
  fase2 (fase1 df)

/-- C5: the mojibake repair fold is applied to exactly the columns whose name
contains a sensitive keyword (NOMBRE, CONCEPTO, DESCRIPCION, PUESTO,
DEPARTAMENTO); every other column — identifier, monetary and date columns
included — passes through the repair phase unchanged. -/
theorem repair_applied_exactly_to_sensitive_columns (df : DataFrame) (i : Nat) :
    (transform_sat_batch df)[i]? =
      ((fase1 df)[i]?).map (fun nd =>
        if colSensible nd.1 then (nd.1, mapUtf8 limpiar_texto_python nd.2) else nd) ∧
    colSensible "UUID" = false ∧
    colSensible "EmisorRFC" = false ∧
    colSensible "FechaEmision" = false ∧
    colSensible "Total" = false ∧
    colSensible "TipoCambio" = false ∧
    colSensible "EmisorNombre" = true ∧
    colSensible "ConceptoDescripcion" = true ∧
    colSensible "Puesto" = true := by
  refine ⟨?_, by decide, by decide, by decide, by decide, by decide, by decide, by decide,
    by decide⟩
  unfold transform_sat_batch fase2
  rw [List.getElem?_map]

/-- C10: before any repair, the transform step trims perimeter whitespace and
uppercases every Utf8 column of the batch, the non-sensitive ones included,
so a column no repair rule touches is still persisted uppercased. -/
theorem transform_uppercases_every_text_column
    (df : DataFrame) (i : Nat) (n : String) (cells : List (Option String))
    (hget : df[i]? = some (n, ColData.utf8 cells)) :
    (fase1 df)[i]? =
      some (n, ColData.utf8 (cells.map (Option.map (fun s => toUpperStr (stripChars s))))) ∧
    transform_sat_batch df = fase2 (fase1 df) ∧
    (colSensible n = false →
      (transform_sat_batch df)[i]? =
        some (n, ColData.utf8 (cells.map (Option.map (fun s => toUpperStr (stripChars s)))))) := by
  have h1 : (fase1 df)[i]? =
      some (n, ColData.utf8 (cells.map (Option.map (fun s => toUpperStr (stripChars s))))) := by
    unfold fase1
    rw [List.getElem?_map, hget]
    rfl
  refine ⟨h1, rfl, fun hns => ?_⟩
  unfold transform_sat_batch fase2
  rw [List.getElem?_map, h1]
  simp [hns]

/-- Concrete instance for `transform_uppercases_every_text_column`: a
non-sensitive identifier column is trimmed and uppercased by the transform. -/
theorem transform_uppercases_witness :
    (fase1 [("UUID", ColData.utf8 [some "  ab-01  "])])[0]? =
      some ("UUID", ColData.utf8 ([some "  ab-01  "].map
        (Option.map (fun s => toUpperStr (stripChars s))))) ∧
    transform_sat_batch [("UUID", ColData.utf8 [some "  ab-01  "])] =
      fase2 (fase1 [("UUID", ColData.utf8 [some "  ab-01  "])]) ∧
    (colSensible "UUID" = false →
      (transform_sat_batch [("UUID", ColData.utf8 [some "  ab-01  "])])[0]? =
        some ("UUID", ColData.utf8 ([some "  ab-01  "].map
          (Option.map (fun s => toUpperStr (stripChars s)))))) :=
  transform_uppercases_every_text_column
    [("UUID", ColData.utf8 [some "  ab-01  "])] 0 "UUID" [some "  ab-01  "] (by decide)

/-! ### Parsing models for the coercion targets

`str.to_datetime(strict=False)` on the 19-character ISO prefix parses the
format `%Y-%m-%d %H:%M:%S` with calendar validation, null on failure;
`cast(pl.Float64, strict=False)` parses a standard float literal (optional
sign, digits with optional fraction, optional exponent, and the case-
insensitive `inf`/`infinity`/`nan` forms), null on failure: in particular
digit-grouping commas are not accepted. -/

def digitChar (c : Char) : Bool := '0' ≤ c && c ≤ '9'

def natOfDigits (cs : List Char) : Nat :=
  cs.foldl (fun a c => a * 10 + (c.toNat - '0'.toNat)) 0

def leapYear (y : Nat) : Bool := y % 4 = 0 && (y % 100 ≠ 0 || y % 400 = 0)

def daysInMonth (y m : Nat) : Nat :=
  if m = 2 then (if leapYear y then 29 else 28)
  else if m = 4 ∨ m = 6 ∨ m = 9 ∨ m = 11 then 30
  else 31

/-- Model of the datetime conversion polars applies to the fixed-width
ISO-like prefix: parse exactly `YYYY-MM-DD HH:MM:SS`, validating the
calendar; any other shape yields null. -/
def parseDatetime (s : String) : Option Timestamp :=
  match s.data with
  | [y1, y2, y3, y4, d1, m1, m2, d2, a1, a2, sp, h1, h2, c1, n1, n2, c2, s1, s2] =>
    if ([y1, y2, y3, y4, m1, m2, a1, a2, h1, h2, n1, n2, s1, s2].all digitChar) ∧
        d1 = '-' ∧ d2 = '-' ∧ sp = ' ' ∧ c1 = ':' ∧ c2 = ':' then
      let yr := natOfDigits [y1, y2, y3, y4]
      let mo := natOfDigits [m1, m2]
      let dy := natOfDigits [a1, a2]
      let hh := natOfDigits [h1, h2]
      let mi := natOfDigits [n1, n2]
      let ss := natOfDigits [s1, s2]
      if 1 ≤ mo ∧ mo ≤ 12 ∧ 1 ≤ dy ∧ dy ≤ daysInMonth yr mo ∧ hh < 24 ∧ mi < 60 ∧ ss < 60
      then some ⟨yr, mo, dy, hh, mi, ss⟩
      else none
    else none
  | _ => none

def lowerAscii (c : Char) : Char :=
  if 'A' ≤ c ∧ c ≤ 'Z' then Char.ofNat (c.toNat + 32) else c

/-- Mantissa of a float literal: `digits`, `digits.digits`, `.digits` or
`digits.`; returns its exact rational value and the unconsumed remainder. -/
def parseMantissa (cs : List Char) : Option (ℚ × List Char) :=
  let ip := cs.takeWhile digitChar
  let r1 := cs.dropWhile digitChar
  match r1 with
  | '.' :: t =>
    let fp := t.takeWhile digitChar
    let r2 := t.dropWhile digitChar
    if ip.isEmpty ∧ fp.isEmpty then none
    else some ((natOfDigits ip : ℚ) + (natOfDigits fp : ℚ) / ((10 : ℚ) ^ fp.length), r2)
  | _ => if ip.isEmpty then none else some ((natOfDigits ip : ℚ), r1)

/-- Optional exponent suffix; the whole remainder must be consumed. -/
def parseExponent : List Char → Option Int
  | [] => some 0
  | e :: t =>
    if e = 'e' ∨ e = 'E' then
      match t with
      | '+' :: u => if ¬ u.isEmpty ∧ u.all digitChar then some (natOfDigits u : Int) else none
      | '-' :: u => if ¬ u.isEmpty ∧ u.all digitChar then some (-(natOfDigits u : Int)) else none
      | u => if ¬ u.isEmpty ∧ u.all digitChar then some (natOfDigits u : Int) else none
    else none

/-- Model of `cast(pl.Float64, strict=False)` on one already-stripped string:
the exact decimal value on success, null on any syntax error (thousands
commas included). -/
def parseF64 (s : String) : Option F64 :=
  let (neg, cs) :=
    match s.data with
    | '+' :: t => (false, t)
    | '-' :: t => (true, t)
    | t => (false, t)
  let lw := cs.map lowerAscii
  if lw = "inf".data ∨ lw = "infinity".data then
    some (if neg then F64.neginf else F64.inf)
  else if lw = "nan".data then some F64.nan
  else
    match parseMantissa cs with
    | none => none
    | some (m, rest) =>
      match parseExponent rest with
      | none => none
      | some e =>
        let v := m * (10 : ℚ) ^ e
        some (F64.finite (if neg then -v else v))

/-- Model of polars `str.slice(0, n)`: the first `n` characters. -/
def takeStr (n : Nat) (s : String) : String := ⟨s.data.take n⟩

/-! ### The coercion step (`pkg/enforcer.py::aplicar_tipos_seguros`) -/

inductive PDtype where
  | utf8
  | datetime
  | float64
deriving DecidableEq, Repr

/-- The explicit column-name → dtype mapping of
`pkg/config_master.py::REGLAS_DINAMICAS`. -/
def REGLAS_DINAMICAS : List (String × PDtype) := [
  ("UUID", PDtype.utf8),
  ("EMISORRFC", PDtype.utf8),
  ("RECEPTORRFC", PDtype.utf8),
  ("FECHAEMISION", PDtype.datetime),
  ("FECHACERTIFICACION", PDtype.datetime),
  ("FECHACANCELACION", PDtype.datetime),
  ("FECHAPAGO", PDtype.datetime),
  ("FECHAINICIALPAGO", PDtype.datetime),
  ("FECHAFINALPAGO", PDtype.datetime),
  ("RECEPTORFECHAINICIORELLABORAL", PDtype.datetime),
  ("DESCUENTO", PDtype.float64),
  ("SUBTOTAL", PDtype.float64),
  ("TOTAL", PDtype.float64),
  ("TRASLADOSIVA", PDtype.float64),
  ("TRASLADOSIEPS", PDtype.float64),
  ("TOTALIMPUESTOSTRASLADADOS", PDtype.float64),
  ("RETENIDOSIVA", PDtype.float64),
  ("RETENIDOSISR", PDtype.float64),
  ("TOTALIMPUESTOSRETENIDOS", PDtype.float64),
  ("TIPOCAMBIO", PDtype.float64),
  ("CONCEPTOCANTIDAD", PDtype.float64),
  ("CONCEPTOVALORUNITARIO", PDtype.float64),
  ("CONCEPTOIMPORTE", PDtype.float64),
  ("NUMDIASPAGADOS", PDtype.float64),
  ("TOTALPERCEPCIONES", PDtype.float64),
  ("TOTALDEDUCCIONES", PDtype.float64),
  ("TOTALOTROSPAGOS", PDtype.float64),
  ("PERCEPCIONESTOTALGRAVADO", PDtype.float64),
  ("PERCEPCIONESTOTALEXENTO", PDtype.float64),
  ("TOTALOTRASDEDUCCIONES", PDtype.float64),
  ("NOMINATOTALIMPUESTOSRETENIDOS", PDtype.float64),
  ("EMISORENTIDADSNCFMONTORECURSOPROPIO", PDtype.float64),
  ("PERCEPCIONIMPORTEGRAVADO", PDtype.float64),
  ("PERCEPCIONIMPORTEEXENTO", PDtype.float64),
  ("DEDUCCIONESIMPORTE", PDtype.float64),
  ("PERCEPCIONESTOTALSUELDOS", PDtype.float64),
  ("PERCEPCIONESTOTALSEPARACIONINDEMNIZACION", PDtype.float64),
  ("PERCEPCIONESTOTALJUBILACIONPENSIONRETIRO", PDtype.float64),
  ("JUBILACIONPENSIONRETIROTOTALUNAEXHIBICION", PDtype.float64),
  ("JUBILACIONPENSIONRETIROTOTALPARCIALIDAD", PDtype.float64),
  ("JUBILACIONPENSIONRETIROMONTODIARIO", PDtype.float64),
  ("JUBILACIONPENSIONRETIROINGRESOACUMULABLE", PDtype.float64),
  ("JUBILACIONPENSIONRETIROINGRESONOACUMULABLE", PDtype.float64),
  ("SEPARACIONINDEMNIZACIONTOTALPAGADO", PDtype.float64),
  ("SEPARACIONINDEMNIZACIONULTIMOSUELDOMENSORD", PDtype.float64),
  ("SEPARACIONINDEMNIZACIONINGRESOACUMULABLE", PDtype.float64),
  ("SEPARACIONINDEMNIZACIONINGRESONOACUMULABLE", PDtype.float64),
  ("IMPORTE", PDtype.float64),
  ("SUBSIDIOCAUSADO", PDtype.float64)
]

/-- The monetary keyword list of `aplicar_tipos_seguros` pattern 2. -/
def claves_financieras : List String :=
  ["TOTAL", "IMPORTE", "SUBTOTAL", "DESCUENTO", "TRASLADOS", "RETENIDOS",
   "MONTO", "VALOR", "SALDO"]

/-- `pl.col(col).str.slice(0,19).str.to_datetime(strict=False)` on a Utf8
column. -/
def castDatetimeCol : ColData → ColData
  | .utf8 cells => .dt (cells.map (fun oc => oc.bind (fun s => parseDatetime (takeStr 19 s))))
  | d => d

/-- `pl.col(col).str.strip_chars().cast(pl.Float64, strict=False)` on a Utf8
column. -/
def castFloatCol : ColData → ColData
  | .utf8 cells => .f64 (cells.map (fun oc => oc.bind (fun s => parseF64 (stripChars s))))
  | d => d

/-- The per-column inference of `aplicar_tipos_seguros`: an ordered if/elif
chain on the uppercased column name (FECHA, then the monetary keywords, then
DIAS/CANTIDAD; otherwise the column is left untouched). -/
def inferCast (n : String) (d : ColData) : ColData :=
  let up := toUpperStr n
  if occursInStr "FECHA" up then castDatetimeCol d
  else if claves_financieras.any (fun key => occursInStr key up) then castFloatCol d
  else if occursInStr "DIAS" up || occursInStr "CANTIDAD" up then castFloatCol d
  else d

/-- Model of `pkg/enforcer.py::aplicar_tipos_seguros`.  The
`reglas_globales` parameter mirrors the source signature, whose docstring
marks it "Reservado para mapeos explícitos opcionales": the body never reads
it.  An empty batch is returned unchanged; otherwise the cast expressions are
applied with `with_columns`, which replaces each column in place. -/
def aplicar_tipos_seguros (df : DataFrame)
    (reglas_globales : List (String × PDtype)) : DataFrame :=
  if dfHeight df = 0 then df
  else df.map (fun nd => (nd.1, inferCast nd.1 nd.2))

/-! ### Claims about the coercion step -/

/-- A one-column batch whose column appears in the explicit rule mapping but
contains none of the inference keywords. -/
def dfTipoCambio : DataFrame := [("TIPOCAMBIO", ColData.utf8 [some "18.5"])]

/-- C1, counterexample: the explicit rule mapping marks TIPOCAMBIO as
Float64, yet coercion leaves the column exactly as it was — still text, the
value unparsed — so no explicit rule is ever tried before keyword inference. -/
theorem explicit_rule_counterexample :
    REGLAS_DINAMICAS.lookup "TIPOCAMBIO" = some PDtype.float64 ∧
    aplicar_tipos_seguros dfTipoCambio REGLAS_DINAMICAS = dfTipoCambio ∧
    dfTipoCambio ≠ [("TIPOCAMBIO", ColData.f64 [some (F64.finite (37 / 2))])] := by
  refine ⟨by decide, by decide, by decide⟩

/-- C1, amended: the coercion step never consults the explicit rule mapping —
its `reglas_globales` parameter is dead, so the result is the same for any
two rule mappings — and every column is typed solely by keyword inference on
its uppercased name; in particular TIPOCAMBIO, explicitly mapped but matching
no keyword, is left as text. -/
theorem coercion_ignores_explicit_rules
    (df : DataFrame) (r1 r2 : List (String × PDtype)) :
    aplicar_tipos_seguros df r1 = aplicar_tipos_seguros df r2 ∧
    (dfHeight df ≠ 0 →
      aplicar_tipos_seguros df r1 = df.map (fun nd => (nd.1, inferCast nd.1 nd.2))) ∧
    aplicar_tipos_seguros dfTipoCambio REGLAS_DINAMICAS = dfTipoCambio := by
  refine ⟨rfl, fun hne => ?_, by decide⟩
  unfold aplicar_tipos_seguros
  rw [if_neg hne]

/-- Concrete instance for `coercion_ignores_explicit_rules` discharging its
non-emptiness hypothesis on the TIPOCAMBIO batch. -/
theorem coercion_ignores_explicit_rules_witness :
    aplicar_tipos_seguros dfTipoCambio REGLAS_DINAMICAS =
      aplicar_tipos_seguros dfTipoCambio [] ∧
    (dfHeight dfTipoCambio ≠ 0 →
      aplicar_tipos_seguros dfTipoCambio REGLAS_DINAMICAS =
        dfTipoCambio.map (fun nd => (nd.1, inferCast nd.1 nd.2))) ∧
    aplicar_tipos_seguros dfTipoCambio REGLAS_DINAMICAS = dfTipoCambio :=
  coercion_ignores_explicit_rules dfTipoCambio REGLAS_DINAMICAS []

/-- C6: every column whose uppercased name contains FECHA is coerced by
taking the first 19 characters of each value and parsing them as a timestamp,
unparseable values becoming null; concretely,
"2024-05-01 10:22:59.123" yields the timestamp 2024-05-01 10:22:59 and
"N/A" yields null. -/
theorem fecha_columns_slice19_then_parse
    (df : DataFrame) (reglas : List (String × PDtype)) (i : Nat)
    (n : String) (cells : List (Option String))
    (hne : dfHeight df ≠ 0)
    (hget : df[i]? = some (n, ColData.utf8 cells))
    (hf : occursInStr "FECHA" (toUpperStr n) = true) :
    (aplicar_tipos_seguros df reglas)[i]? =
      some (n, ColData.dt (cells.map
        (fun oc => oc.bind (fun s => parseDatetime (takeStr 19 s))))) ∧
    parseDatetime (takeStr 19 "2024-05-01 10:22:59.123") =
      some ⟨2024, 5, 1, 10, 22, 59⟩ ∧
    parseDatetime (takeStr 19 "N/A") = none := by
  refine ⟨?_, by decide, by decide⟩
  unfold aplicar_tipos_seguros
  rw [if_neg hne, List.getElem?_map, hget]
  simp only [Option.map_some']
  unfold inferCast
  rw [if_pos hf]
  rfl

/-- Concrete instance for `fecha_columns_slice19_then_parse` on a
FECHAEMISION column holding the two spec fixtures. -/
theorem fecha_columns_witness :
    (aplicar_tipos_seguros
        [("FECHAEMISION", ColData.utf8 [some "2024-05-01 10:22:59.123", some "N/A"])]
        REGLAS_DINAMICAS)[0]? =
      some ("FECHAEMISION", ColData.dt
        ([some "2024-05-01 10:22:59.123", some "N/A"].map
          (fun oc => oc.bind (fun s => parseDatetime (takeStr 19 s))))) ∧
    parseDatetime (takeStr 19 "2024-05-01 10:22:59.123") =
      some ⟨2024, 5, 1, 10, 22, 59⟩ ∧
    parseDatetime (takeStr 19 "N/A") = none :=
  fecha_columns_slice19_then_parse
    [("FECHAEMISION", ColData.utf8 [some "2024-05-01 10:22:59.123", some "N/A"])]
    REGLAS_DINAMICAS 0 "FECHAEMISION"
    [some "2024-05-01 10:22:59.123", some "N/A"]
    (by decide) (by decide) (by decide)

/-- A one-column batch whose name contains both FECHA and the monetary
keyword TOTAL, with a value that is a valid decimal but not a timestamp. -/
def dfFechaTotal : DataFrame := [("FECHATOTAL", ColData.utf8 [some "5"])]

/-- C7, counterexample: FECHATOTAL contains the monetary keyword TOTAL, but
the FECHA pattern is tried first, so the column is coerced to datetime (the
value nulled) instead of the decimal parse the claim requires. -/
theorem monetary_claim_counterexample :
    claves_financieras.any
      (fun key => occursInStr key (toUpperStr "FECHATOTAL")) = true ∧
    aplicar_tipos_seguros dfFechaTotal REGLAS_DINAMICAS =
      [("FECHATOTAL", ColData.dt [none])] ∧
    ColData.dt [none] ≠
      ColData.f64 ([some "5"].map
        (fun oc => oc.bind (fun s => parseF64 (stripChars s)))) := by
  refine ⟨by decide, by decide, by decide⟩

/-- C7, amended: every column whose uppercased name contains a monetary
keyword and does not contain FECHA (the date pattern takes precedence) is
coerced by trimming perimeter whitespace and parsing a decimal with no
grouping-separator stripping, unparseable values becoming null; concretely a
TOTAL value " 1,234.50" becomes null because the comma is not stripped. -/
theorem monetary_columns_strip_then_parse
    (df : DataFrame) (reglas : List (String × PDtype)) (i : Nat)
    (n : String) (cells : List (Option String))
    (hne : dfHeight df ≠ 0)
    (hget : df[i]? = some (n, ColData.utf8 cells))
    (hnf : occursInStr "FECHA" (toUpperStr n) = false)
    (hm : claves_financieras.any (fun key => occursInStr key (toUpperStr n)) = true) :
    (aplicar_tipos_seguros df reglas)[i]? =
      some (n, ColData.f64 (cells.map
        (fun oc => oc.bind (fun s => parseF64 (stripChars s))))) ∧
    parseF64 (stripChars " 1,234.50") = none := by
  refine ⟨?_, by decide⟩
  unfold aplicar_tipos_seguros
  rw [if_neg hne, List.getElem?_map, hget]
  simp only [Option.map_some']
  unfold inferCast
  rw [if_neg (by simp [hnf]), if_pos hm]
  rfl

/-- Concrete instance for `monetary_columns_strip_then_parse` on a TOTAL
column holding the comma-grouped fixture. -/
theorem monetary_columns_witness :
    (aplicar_tipos_seguros [("TOTAL", ColData.utf8 [some " 1,234.50"])]
        REGLAS_DINAMICAS)[0]? =
      some ("TOTAL", ColData.f64 ([some " 1,234.50"].map
        (fun oc => oc.bind (fun s => parseF64 (stripChars s))))) ∧
    parseF64 (stripChars " 1,234.50") = none :=
  monetary_columns_strip_then_parse
    [("TOTAL", ColData.utf8 [some " 1,234.50"])] REGLAS_DINAMICAS 0
    "TOTAL" [some " 1,234.50"] (by decide) (by decide) (by decide) (by decide)

/-! ### The load engine (`pkg/load.py`)

The SQL Server target is modelled by an optional table (absent until the
conditional-create DDL runs) holding its declared column types and its
persisted rows.  One `upload_to_sql_blindado` call is a pure function from
the batch and the table state to the new state, a trace of the round trips it
performed, and either a boolean result or a propagated exception; pyodbc's
`executemany` inside an uncommitted transaction is all-or-nothing, the
connection close in the `finally` block rolling back anything uncommitted. -/

inductive PValue where
  | pstr (v : Option String)
  | pdt (v : Option Timestamp)
  | pf64 (v : Option F64)
deriving DecidableEq, Repr

def colCells : ColData → List PValue
  | .utf8 cs => cs.map PValue.pstr
  | .dt cs => cs.map PValue.pdt
  | .f64 cs => cs.map PValue.pf64

/-- `df.iter_rows()`: the batch in row-major order. -/
def dfRows (df : DataFrame) : List (List PValue) :=
  (List.range (dfHeight df)).map
    (fun i => df.map (fun nd => (colCells nd.2).getD i (PValue.pstr none)))

/-- The business-length dictionary of `create_table_dynamic`, in source
order; `next(...)` takes the first key contained in the uppercased name. -/
def business_lengths : List (String × String) := [
  ("RFC", "VARCHAR(13)"),
  ("UUID", "VARCHAR(36) NOT NULL PRIMARY KEY"),
  ("CURP", "VARCHAR(18)"),
  ("MONEDA", "VARCHAR(10)"),
  ("TIPO", "VARCHAR(10)"),
  ("METODOPAGO", "VARCHAR(5)"),
  ("FORMAPAGO", "VARCHAR(5)"),
  ("SERIE", "VARCHAR(50)"),
  ("FOLIO", "VARCHAR(50)"),
  ("NUMEMPLEADO", "VARCHAR(50)"),
  ("BANCO", "VARCHAR(10)"),
  ("CAMBIO", "DECIMAL(18,4)")]

/-- Storage type chosen by `create_table_dynamic` for one column: business
keyword first, then Datetime, then Float64 (wider scale for exchange-rate
columns), otherwise unbounded text. -/
def colSqlType (n : String) (d : ColData) : String :=
  let up := toUpperStr n
  match business_lengths.find? (fun kv => occursInStr kv.1 up) with
  | some kv => kv.2
  | none =>
    match d with
    | .dt _ => "DATETIME2(0)"
    | .f64 _ => if occursInStr "CAMBIO" up then "DECIMAL(18,4)" else "DECIMAL(18,2)"
    | .utf8 _ => "VARCHAR(MAX)"

structure SqlTable where
  cols : List (String × String)
  rows : List (List PValue)
deriving DecidableEq, Repr

/-- Model of `create_table_dynamic`: the DDL is conditioned on table absence,
so an existing table is untouched and an absent one is created empty with the
inferred column types. -/
def create_table_dynamic (df : DataFrame) (st : Option SqlTable) : SqlTable :=
  match st with
  | some t => t
  | none => ⟨df.map (fun nd => (nd.1, colSqlType nd.1 nd.2)), []⟩

/-- SQL equality for the `WHERE UUID = ?` probe: NULL compares equal to
nothing. -/
def sqlEquals (a b : PValue) : Bool :=
  match a, b with
  | .pstr (some x), .pstr (some y) => x = y
  | .pdt (some x), .pdt (some y) => x = y
  | .pf64 (some x), .pf64 (some y) => x = y
  | _, _ => false

/-- Model of `check_if_exists`: `SELECT TOP 1 1 FROM t WHERE UUID = ?`; any
error (no such table, no such column) is swallowed and reported as False. -/
def check_if_exists (st : Option SqlTable) (v : PValue) : Bool :=
  match st with
  | none => false
  | some tb =>
    match tb.cols.findIdx? (fun c => toUpperStr c.1 = "UUID") with
    | none => false
    | some i => tb.rows.any (fun r => sqlEquals (r.getD i (PValue.pstr none)) v)

def isNullV : PValue → Bool
  | .pstr none => true
  | .pdt none => true
  | .pf64 none => true
  | _ => false

/-- Column positions carrying the NOT NULL PRIMARY KEY declaration. -/
def pkIndices (tb : SqlTable) : List Nat :=
  (List.range tb.cols.length).filter
    (fun i => occursInStr "PRIMARY KEY" ((tb.cols.getD i ("", "")).2))

def pairwiseDistinct : List PValue → Bool
  | [] => true
  | v :: rest => rest.all (fun w => !sqlEquals v w) && pairwiseDistinct rest

/-- Whether inserting `newRows` respects every primary-key constraint of the
table: no NULL key, no key repeated inside the batch, no key already
persisted. -/
def insertOk (tb : SqlTable) (newRows : List (List PValue)) : Bool :=
  (pkIndices tb).all (fun i =>
    newRows.all (fun r => !isNullV (r.getD i (PValue.pstr none))) &&
    pairwiseDistinct (newRows.map (fun r => r.getD i (PValue.pstr none))) &&
    newRows.all (fun r =>
      tb.rows.all (fun old =>
        !sqlEquals (old.getD i (PValue.pstr none)) (r.getD i (PValue.pstr none)))))

inductive DbOp where
  | createTable
  | commitTx
  | existsCheck (v : PValue)
  | insertRows (n : Nat)
deriving DecidableEq, Repr

inductive UploadErr where
  | keyError
  | constraintViolation
deriving DecidableEq, Repr

/-- `df["UUID"]` in polars: exact-name column access, raising when absent. -/
def dfColumn (df : DataFrame) (n : String) : Option ColData :=
  (df.find? (fun nd => nd.1 = n)).map (fun nd => nd.2)

/-- Model of `upload_to_sql_blindado`: empty batch → False with no round
trip; otherwise conditional-create DDL and commit, the first-record duplicate
probe (skip with False when it hits), then one atomic `executemany` +
commit — on a constraint breach the close rolls the transaction back and the
violation propagates. -/
def upload_to_sql_blindado (df : DataFrame) (st : Option SqlTable) :
    Option SqlTable × List DbOp × Except UploadErr Bool :=
  if dfHeight df = 0 then (st, [], .ok false)
  else
    let tb := create_table_dynamic df st
    match dfColumn df "UUID" with
    | none => (some tb, [.createTable, .commitTx], .error .keyError)
    | some cd =>
      let primer := (colCells cd).getD 0 (PValue.pstr none)
      if check_if_exists (some tb) primer then
        (some tb, [.createTable, .commitTx, .existsCheck primer], .ok false)
      else
        let rows := dfRows df
        if insertOk tb rows then
          (some { tb with rows := tb.rows ++ rows },
           [.createTable, .commitTx, .existsCheck primer, .insertRows rows.length,
            .commitTx],
           .ok true)
        else
          (some tb,
           [.createTable, .commitTx, .existsCheck primer, .insertRows rows.length],
           .error .constraintViolation)

def rowCount : Option SqlTable → Nat
  | none => 0
  | some t => t.rows.length

def isCreateOp : DbOp → Bool
  | .createTable => true
  | _ => false

def isInsertOp : DbOp → Bool
  | .insertRows _ => true
  | _ => false

/-- The reporting branch of the driver loop (`main.py`): any False return of
the upload is printed as a primary-key collision. -/
def reporte_sql (upload_success : Bool) : String :=
  if upload_success then "SQL: OK" else "SQL: OMITIDO (Colisión de PK)"

theorem rowCount_create (df : DataFrame) (st : Option SqlTable) :
    rowCount (some (create_table_dynamic df st)) = rowCount st := by
  cases st <;> rfl

theorem dfRows_length (df : DataFrame) : (dfRows df).length = dfHeight df := by
  simp [dfRows]

theorem upload_ok_true_inv (df : DataFrame) (st : Option SqlTable)
    (h : (upload_to_sql_blindado df st).2.2 = .ok true) :
    insertOk (create_table_dynamic df st) (dfRows df) = true ∧
    (upload_to_sql_blindado df st).2.1.countP isInsertOp = 1 ∧
    (upload_to_sql_blindado df st).2.1.getLast? = some DbOp.commitTx ∧
    rowCount (upload_to_sql_blindado df st).1 = rowCount st + dfHeight df := by
  by_cases h0 : dfHeight df = 0
  · exfalso
    unfold upload_to_sql_blindado at h
    rw [if_pos h0] at h
    exact absurd h (by simp)
  · cases hcol : dfColumn df "UUID" with
    | none =>
      exfalso
      unfold upload_to_sql_blindado at h
      rw [if_neg h0, hcol] at h
      exact absurd h (by simp)
    | some cd =>
      by_cases hd : check_if_exists (some (create_table_dynamic df st))
          ((colCells cd).getD 0 (PValue.pstr none)) = true
      · exfalso
        unfold upload_to_sql_blindado at h
        rw [if_neg h0, hcol] at h
        simp only [if_pos hd] at h
        exact absurd h (by simp)
      · by_cases hins : insertOk (create_table_dynamic df st) (dfRows df) = true
        · have hres : upload_to_sql_blindado df st =
            (some { create_table_dynamic df st with
                      rows := (create_table_dynamic df st).rows ++ dfRows df },
             [.createTable, .commitTx,
              .existsCheck ((colCells cd).getD 0 (PValue.pstr none)),
              .insertRows (dfRows df).length, .commitTx],
             .ok true) := by
            unfold upload_to_sql_blindado
            rw [if_neg h0, hcol]
            simp only [if_neg hd, if_pos hins]
          refine ⟨hins, ?_, ?_, ?_⟩
          · rw [hres]; rfl
          · rw [hres]; rfl
          · rw [hres]
            show ((create_table_dynamic df st).rows ++ dfRows df).length =
              rowCount st + dfHeight df
            rw [List.length_append, dfRows_length]
            have := rowCount_create df st
            simpa [rowCount] using congrArg (· + dfHeight df) this
        · exfalso
          unfold upload_to_sql_blindado at h
          rw [if_neg h0, hcol] at h
          simp only [if_neg hd, if_neg hins] at h
          exact absurd h (by simp)

/-- C2: a non-empty batch whose first record's UUID already exists in the
target table is skipped whole: the upload returns the skip report (False)
without raising, performs zero row inserts, leaves the table's rows exactly
as they were, and issues the conditional table-creation statement exactly
once. -/
theorem upload_skips_duplicate_batch
    (df : DataFrame) (st : Option SqlTable) (cd : ColData)
    (hne : dfHeight df ≠ 0)
    (hcol : dfColumn df "UUID" = some cd)
    (hdup : check_if_exists (some (create_table_dynamic df st))
      ((colCells cd).getD 0 (PValue.pstr none)) = true) :
    upload_to_sql_blindado df st =
      (some (create_table_dynamic df st),
       [DbOp.createTable, DbOp.commitTx,
        DbOp.existsCheck ((colCells cd).getD 0 (PValue.pstr none))],
       .ok false) ∧
    (upload_to_sql_blindado df st).2.1.countP isInsertOp = 0 ∧
    (upload_to_sql_blindado df st).2.1.countP isCreateOp = 1 ∧
    rowCount (upload_to_sql_blindado df st).1 = rowCount st := by
  have hres : upload_to_sql_blindado df st =
      (some (create_table_dynamic df st),
       [DbOp.createTable, DbOp.commitTx,
        DbOp.existsCheck ((colCells cd).getD 0 (PValue.pstr none))],
       .ok false) := by
    unfold upload_to_sql_blindado
    rw [if_neg hne, hcol]
    simp only [if_pos hdup]
  refine ⟨hres, by rw [hres]; rfl, by rw [hres]; rfl, ?_⟩
  rw [hres]
  exact rowCount_create df st

/-- Concrete instance for `upload_skips_duplicate_batch`: a one-row batch
whose UUID already sits in the table is skipped with no insert. -/
theorem upload_skips_duplicate_witness :
    upload_to_sql_blindado [("UUID", ColData.utf8 [some "U1"])]
        (some ⟨[("UUID", "VARCHAR(36) NOT NULL PRIMARY KEY")],
               [[PValue.pstr (some "U1")]]⟩) =
      (some ⟨[("UUID", "VARCHAR(36) NOT NULL PRIMARY KEY")],
             [[PValue.pstr (some "U1")]]⟩,
       [DbOp.createTable, DbOp.commitTx,
        DbOp.existsCheck ((colCells (ColData.utf8 [some "U1"])).getD 0 (PValue.pstr none))],
       .ok false) ∧
    (upload_to_sql_blindado [("UUID", ColData.utf8 [some "U1"])]
        (some ⟨[("UUID", "VARCHAR(36) NOT NULL PRIMARY KEY")],
               [[PValue.pstr (some "U1")]]⟩)).2.1.countP isInsertOp = 0 ∧
    (upload_to_sql_blindado [("UUID", ColData.utf8 [some "U1"])]
        (some ⟨[("UUID", "VARCHAR(36) NOT NULL PRIMARY KEY")],
               [[PValue.pstr (some "U1")]]⟩)).2.1.countP isCreateOp = 1 ∧
    rowCount (upload_to_sql_blindado [("UUID", ColData.utf8 [some "U1"])]
        (some ⟨[("UUID", "VARCHAR(36) NOT NULL PRIMARY KEY")],
               [[PValue.pstr (some "U1")]]⟩)).1 =
      rowCount (some ⟨[("UUID", "VARCHAR(36) NOT NULL PRIMARY KEY")],
               [[PValue.pstr (some "U1")]]⟩) :=
  upload_skips_duplicate_batch
    [("UUID", ColData.utf8 [some "U1"])]
    (some ⟨[("UUID", "VARCHAR(36) NOT NULL PRIMARY KEY")],
           [[PValue.pstr (some "U1")]]⟩)
    (ColData.utf8 [some "U1"]) (by decide) (by decide) (by decide)

/-- C3: a non-skipped batch is inserted as one atomic transaction: on full
success every row is appended and committed (True); if any row breaches a
primary-key constraint — e.g. a later record's UUID already persisted,
missed by the first-record guard — the upload raises ConstraintViolation and
the table's row count is exactly what it was before the call. -/
theorem upload_atomic_or_rollback
    (df : DataFrame) (st : Option SqlTable) (cd : ColData)
    (hne : dfHeight df ≠ 0)
    (hcol : dfColumn df "UUID" = some cd)
    (hnodup : check_if_exists (some (create_table_dynamic df st))
      ((colCells cd).getD 0 (PValue.pstr none)) = false) :
    (insertOk (create_table_dynamic df st) (dfRows df) = true →
      upload_to_sql_blindado df st =
        (some { create_table_dynamic df st with
                  rows := (create_table_dynamic df st).rows ++ dfRows df },
         [DbOp.createTable, DbOp.commitTx,
          DbOp.existsCheck ((colCells cd).getD 0 (PValue.pstr none)),
          DbOp.insertRows (dfRows df).length, DbOp.commitTx],
         .ok true)) ∧
    (insertOk (create_table_dynamic df st) (dfRows df) = false →
      upload_to_sql_blindado df st =
        (some (create_table_dynamic df st),
         [DbOp.createTable, DbOp.commitTx,
          DbOp.existsCheck ((colCells cd).getD 0 (PValue.pstr none)),
          DbOp.insertRows (dfRows df).length],
         .error .constraintViolation) ∧
      rowCount (upload_to_sql_blindado df st).1 = rowCount st) := by
  have hnd : ¬ check_if_exists (some (create_table_dynamic df st))
      ((colCells cd).getD 0 (PValue.pstr none)) = true := by
    rw [hnodup]; exact Bool.false_ne_true
  constructor
  · intro hins
    unfold upload_to_sql_blindado
    rw [if_neg hne, hcol]
    simp only [if_neg hnd, if_pos hins]
  · intro hins
    have hni : ¬ insertOk (create_table_dynamic df st) (dfRows df) = true := by
      rw [hins]; exact Bool.false_ne_true
    have hres : upload_to_sql_blindado df st =
        (some (create_table_dynamic df st),
         [DbOp.createTable, DbOp.commitTx,
          DbOp.existsCheck ((colCells cd).getD 0 (PValue.pstr none)),
          DbOp.insertRows (dfRows df).length],
         .error .constraintViolation) := by
      unfold upload_to_sql_blindado
      rw [if_neg hne, hcol]
      simp only [if_neg hnd, if_neg hni]
    refine ⟨hres, ?_⟩
    rw [hres]
    exact rowCount_create df st

/-- A two-row batch whose first UUID is new but whose second is already
persisted: the coarse first-record guard misses it. -/
def dfLote : DataFrame := [("UUID", ColData.utf8 [some "U1", some "U2"])]

def tablaConU2 : SqlTable :=
  ⟨[("UUID", "VARCHAR(36) NOT NULL PRIMARY KEY")], [[PValue.pstr (some "U2")]]⟩

/-- Concrete instance for `upload_atomic_or_rollback`: a batch that passes
the first-record guard but collides on its second row raises
ConstraintViolation and leaves the row count untouched. -/
theorem upload_atomic_witness :
    (upload_to_sql_blindado dfLote (some tablaConU2)).2.2 =
      .error .constraintViolation ∧
    rowCount (upload_to_sql_blindado dfLote (some tablaConU2)).1 =
      rowCount (some tablaConU2) := by
  have h := upload_atomic_or_rollback dfLote (some tablaConU2)
    (ColData.utf8 [some "U1", some "U2"]) (by decide) (by decide) (by decide)
  have hins : insertOk (create_table_dynamic dfLote (some tablaConU2))
      (dfRows dfLote) = false := by decide
  obtain ⟨hres, hcount⟩ := h.2 hins
  exact ⟨by rw [hres], hcount⟩

/-- C9: the upload returns the same boolean (False) for an empty batch — no
round trip at all — and for a batch skipped by the duplicate guard, and True
only when the rows were actually inserted and committed; the driver loop of
`main.py` prints every False as a primary-key collision, so a caller watching
only the return value cannot tell the two apart. -/
theorem upload_false_conflates_empty_and_skip
    (dfE df : DataFrame) (stE st : Option SqlTable) (cd : ColData)
    (hE : dfHeight dfE = 0)
    (hne : dfHeight df ≠ 0)
    (hcol : dfColumn df "UUID" = some cd)
    (hdup : check_if_exists (some (create_table_dynamic df st))
      ((colCells cd).getD 0 (PValue.pstr none)) = true) :
    upload_to_sql_blindado dfE stE = (stE, [], .ok false) ∧
    (upload_to_sql_blindado df st).2.2 = .ok false ∧
    (∀ (df2 : DataFrame) (st2 : Option SqlTable),
      (upload_to_sql_blindado df2 st2).2.2 = .ok true →
      (upload_to_sql_blindado df2 st2).2.1.countP isInsertOp = 1 ∧
      (upload_to_sql_blindado df2 st2).2.1.getLast? = some DbOp.commitTx ∧
      rowCount (upload_to_sql_blindado df2 st2).1 = rowCount st2 + dfHeight df2) ∧
    reporte_sql false = "SQL: OMITIDO (Colisión de PK)" ∧
    reporte_sql true = "SQL: OK" := by
  refine ⟨?_, ?_, ?_, rfl, rfl⟩
  · unfold upload_to_sql_blindado
    rw [if_pos hE]
  · have hres : upload_to_sql_blindado df st =
        (some (create_table_dynamic df st),
         [DbOp.createTable, DbOp.commitTx,
          DbOp.existsCheck ((colCells cd).getD 0 (PValue.pstr none))],
         .ok false) := by
      unfold upload_to_sql_blindado
      rw [if_neg hne, hcol]
      simp only [if_pos hdup]
    rw [hres]
  · intro df2 st2 h2
    exact (upload_ok_true_inv df2 st2 h2).2

def tablaConU1 : SqlTable :=
  ⟨[("UUID", "VARCHAR(36) NOT NULL PRIMARY KEY")], [[PValue.pstr (some "U1")]]⟩

/-- Concrete instance for `upload_false_conflates_empty_and_skip`: the empty
batch and the guard-skipped batch both come back False, printed as the same
collision line. -/
theorem upload_false_conflates_witness :
    upload_to_sql_blindado ([] : DataFrame) none = (none, [], .ok false) ∧
    (upload_to_sql_blindado [("UUID", ColData.utf8 [some "U1"])]
       (some tablaConU1)).2.2 = .ok false ∧
    reporte_sql false = "SQL: OMITIDO (Colisión de PK)" := by
  have h := upload_false_conflates_empty_and_skip
    [] [("UUID", ColData.utf8 [some "U1"])] none (some tablaConU1)
    (ColData.utf8 [some "U1"]) (by decide) (by decide) (by decide) (by decide)
  exact ⟨h.1, h.2.1, h.2.2.2.1⟩

/-! ### The streaming reader (`pkg/extract.py::HybridSatReader`)

The reader state holds the decoded header line, the decoded lines not yet
consumed, the batch size, and the file-handle state (`closed` plus a counter
of `close()` calls, to state "closed exactly once").  `next_batches` on an
open reader takes up to `batch_size` lines; with none left it closes the
handle and returns the end-of-stream sentinel, otherwise it re-encodes the
chunk with cp1252 replacement and parses it pipe-separated, every column
Utf8.  Iterating a closed Python file object raises `ValueError`, modelled as
the `Except.error` branch. -/

/-- Codepoints beyond Latin-1 that cp1252 can encode (the 0x80–0x9F block of
the codepage). -/
def cp1252Specials : List Nat :=
  [0x20AC, 0x201A, 0x0192, 0x201E, 0x2026, 0x2020, 0x2021, 0x02C6, 0x2030,
   0x0160, 0x2039, 0x0152, 0x017D, 0x2018, 0x2019, 0x201C, 0x201D, 0x2022,
   0x2013, 0x2014, 0x02DC, 0x2122, 0x0161, 0x203A, 0x0153, 0x017E, 0x0178]

def cp1252Encodable (c : Char) : Bool :=
  (c.toNat < 0x100 && !(0x80 ≤ c.toNat && c.toNat ≤ 0x9F)) ||
  cp1252Specials.contains c.toNat

/-- Net effect, character by character, of `chunk_str.encode("cp1252",
errors="replace")` followed by the parser decoding cp1252 again: encodable
characters round-trip, everything else becomes `?`. -/
def cp1252Replace (c : Char) : Char := if cp1252Encodable c then c else '?'

def encodeCp1252Replace (s : String) : String := ⟨s.data.map cp1252Replace⟩

/-- Split a line on the reserved `|` separator; always at least one field. -/
def splitPipe : List Char → List (List Char)
  | [] => [[]]
  | '|' :: rest => [] :: splitPipe rest
  | c :: rest =>
    match splitPipe rest with
    | [] => [[c]]
    | f :: fs => (c :: f) :: fs

/-- An empty CSV field is read as null (`read_csv` default). -/
def parseCell (cs : List Char) : Option String :=
  if cs.isEmpty then none else some ⟨cs⟩

/-- The non-blank chunk lines after the cp1252 round trip, each split on the
separator. -/
def chunkFields (dataLines : List String) : List (List (List Char)) :=
  ((dataLines.map (fun l => (encodeCp1252Replace l).data)).filter
    (fun l => !l.isEmpty)).map splitPipe

/-- Model of the `pl.read_csv(..., separator="|", ignore_errors=True,
truncate_ragged_lines=True, infer_schema_length=0)` call on the re-attached
header plus the chunk lines: the header names the columns, blank lines are
skipped, long rows are truncated to the column count, short rows padded with
nulls, and every column stays Utf8. -/
def parseChunk (headerLine : String) (dataLines : List String) : DataFrame :=
  (List.range (splitPipe (encodeCp1252Replace headerLine).data).length).map
    (fun j =>
      (String.mk ((splitPipe (encodeCp1252Replace headerLine).data).getD j []),
       ColData.utf8 ((chunkFields dataLines).map
         (fun fs => parseCell (fs.getD j [])))))

structure HybridSatReader where
  header : String
  remaining : List String
  batch_size : Nat
  closed : Bool
  closeCount : Nat
deriving DecidableEq, Repr

/-- Model of `HybridSatReader.__init__`: the first decoded line is kept as
the header (empty for an empty file), the rest stream forward. -/
def mkReader (fileLines : List String) (batch_size : Nat) : HybridSatReader :=
  match fileLines with
  | [] => ⟨"", [], batch_size, false, 0⟩
  | h :: t => ⟨h, t, batch_size, false, 0⟩

/-- Model of `HybridSatReader.next_batches`: error on a closed handle; close
once and return the sentinel when no lines remain; otherwise hand the next
`batch_size` lines (header re-attached) to the CSV parser. -/
def next_batches (r : HybridSatReader) :
    Except String (HybridSatReader × Option (List DataFrame)) :=
  if r.closed then .error "I/O operation on closed file."
  else
    let lines := r.remaining.take r.batch_size
    if lines.isEmpty then
      .ok ({ r with closed := true, closeCount := r.closeCount + 1 }, none)
    else
      .ok ({ r with remaining := r.remaining.drop r.batch_size },
           some [parseChunk r.header lines])

theorem splitPipe_ne_nil (cs : List Char) : splitPipe cs ≠ [] := by
  induction cs with
  | nil => simp [splitPipe]
  | cons c rest ih =>
    by_cases h : c = '|'
    · subst h; simp [splitPipe]
    · cases hs : splitPipe rest with
      | nil => exact absurd hs ih
      | cons f fs =>
        intro hcontra
        rw [splitPipe.eq_def] at hcontra
        simp [h, hs] at hcontra

theorem encode_ne_empty (l : String) (h : l ≠ "") :
    ((encodeCp1252Replace l).data).isEmpty = false := by
  have hdata : l.data ≠ [] := by
    intro hnil
    apply h
    cases l with
    | mk d =>
      simp only at hnil
      rw [hnil]
  cases hd : l.data with
  | nil => exact absurd hd hdata
  | cons c cs => simp [encodeCp1252Replace, hd]

theorem chunkFields_length (dataLines : List String)
    (hall : ∀ l ∈ dataLines, l ≠ "") :
    (chunkFields dataLines).length = dataLines.length := by
  unfold chunkFields
  rw [List.filter_eq_self.mpr]
  · simp
  · intro a ha
    obtain ⟨l, hl, rfl⟩ := List.mem_map.mp ha
    rw [encode_ne_empty l (hall l hl)]
    rfl

theorem dfHeight_parseChunk (headerLine : String) (dataLines : List String)
    (hall : ∀ l ∈ dataLines, l ≠ "") :
    dfHeight (parseChunk headerLine dataLines) = dataLines.length := by
  unfold parseChunk dfHeight
  obtain ⟨n, hn⟩ : ∃ n, (splitPipe (encodeCp1252Replace headerLine).data).length
      = n + 1 := by
    cases hs : splitPipe (encodeCp1252Replace headerLine).data with
    | nil => exact absurd hs (splitPipe_ne_nil _)
    | cons f fs => exact ⟨fs.length, by simp⟩
  rw [hn, List.range_succ_eq_map]
  simp [colHeight, chunkFields_length dataLines hall]

/-- C8: when fewer lines remain than the batch size, the next read still
returns that partial batch as a valid non-empty batch; the call immediately
after returns the end-of-stream sentinel exactly once, closing the handle
exactly once at that point, and every later call on the closed reader raises
instead of returning any further batch. -/
theorem reader_final_partial_batch
    (r : HybridSatReader)
    (hopen : r.closed = false)
    (hpos : 0 < r.remaining.length)
    (hlt : r.remaining.length < r.batch_size)
    (hlines : ∀ l ∈ r.remaining, l ≠ "") :
    next_batches r =
      .ok (⟨r.header, [], r.batch_size, false, r.closeCount⟩,
           some [parseChunk r.header r.remaining]) ∧
    dfHeight (parseChunk r.header r.remaining) = r.remaining.length ∧
    0 < dfHeight (parseChunk r.header r.remaining) ∧
    next_batches ⟨r.header, [], r.batch_size, false, r.closeCount⟩ =
      .ok (⟨r.header, [], r.batch_size, true, r.closeCount + 1⟩, none) ∧
    (∀ r2 : HybridSatReader, r2.closed = true →
      next_batches r2 = .error "I/O operation on closed file.") := by
  have htake : r.remaining.take r.batch_size = r.remaining :=
    List.take_of_length_le (le_of_lt hlt)
  have hdrop : r.remaining.drop r.batch_size = [] :=
    List.drop_eq_nil_of_le (le_of_lt hlt)
  have hne : r.remaining.isEmpty = false := by
    cases hr : r.remaining with
    | nil => rw [hr] at hpos; simp at hpos
    | cons a t => simp [hr]
  have hh := dfHeight_parseChunk r.header r.remaining hlines
  refine ⟨?_, hh, by rw [hh]; exact hpos, ?_, ?_⟩
  · unfold next_batches
    rw [hopen, htake]
    simp only [Bool.false_eq_true, if_false, hne, hdrop]
  · unfold next_batches
    simp
  · intro r2 h2
    unfold next_batches
    rw [h2]
    rfl

/-- Concrete instance for `reader_final_partial_batch`: a reader holding one
last line under a batch size of 3 yields that one-row batch, then the
sentinel with the single close, then only errors. -/
theorem reader_final_partial_witness :
    next_batches ⟨"UUID|NOMBRE", ["A|B"], 3, false, 0⟩ =
      .ok (⟨"UUID|NOMBRE", [], 3, false, 0⟩,
           some [parseChunk "UUID|NOMBRE" ["A|B"]]) ∧
    dfHeight (parseChunk "UUID|NOMBRE" ["A|B"]) = 1 ∧
    0 < dfHeight (parseChunk "UUID|NOMBRE" ["A|B"]) ∧
    next_batches ⟨"UUID|NOMBRE", [], 3, false, 0⟩ =
      .ok (⟨"UUID|NOMBRE", [], 3, true, 1⟩, none) ∧
    (∀ r2 : HybridSatReader, r2.closed = true →
      next_batches r2 = .error "I/O operation on closed file.") := by
  have h := reader_final_partial_batch ⟨"UUID|NOMBRE", ["A|B"], 3, false, 0⟩
    (by decide) (by decide) (by decide) (by decide)
  exact h

end ETL
